import Mathlib

/-!
Verification development for the `vishnu_cgpa_bot` repository
(`src/vishnu_cgpa_bot.py`), a Telegram bot that scrapes a student's CGPA
from the Vishnu Institute results website.

The Python code is embedded shallowly:

* The BeautifulSoup parse tree is modelled by the inductive type `Node`
  (an element with tag, attributes and children, or a text node); a parsed
  response page (the `soup` object) is a `Doc := List Node`.  All claims
  that speak about "every HTML input" are stated over every parsed
  document, which is the representation the extraction code actually
  works on (parsing itself is done by the external BeautifulSoup library).
* The six `re` patterns of extraction strategy 1 are embedded by a small
  backtracking matcher (`matchToks`) over a token type `Tok` covering
  exactly the constructs the patterns use (literals, `\s*`, `:?`, `\.?`,
  lazy `.*?`, and the capture group `(\d+\.?\d*)`).  The matcher carries a
  fuel argument so that it is structurally recursive; every recursive call
  strictly decreases `tokens.length + input.length`, and the fuel is
  initialised to that sum plus one, so the fuel is never exhausted.
* Python `float` values produced from the captured digit strings are
  modelled exactly as decimal rationals `(n, k)` meaning `n / 10^k`
  (the digit strings are non-negative decimals, for which parsing,
  comparison with 0 and 10, and `str()` are decimal-exact).
* The `requests` network boundary is modelled by an environment `Env`
  mapping a URL (and POST data) to either a parsed response document or a
  transport error (timeouts, connection failures and non-2xx statuses all
  surface as `requests` exceptions in the source, which the source catches
  wholesale).  Each outgoing request is recorded in an event trace so that
  claims about "no network call" and "backoff delays" are statable.
-/

/-! ## Characters and strings (Python `str` helpers) -/

/-- Python `\s` and `str.strip()` whitespace, restricted to ASCII
(the pages handled by the source are ASCII; Unicode whitespace is out of
scope of every claim). -/
def pyIsSpace (c : Char) : Bool :=
  c = ' ' || c = '\t' || c = '\n' || c = '\r' || c = '\x0b' || c = '\x0c'

/-- Lower-case a string character-wise, as Python `str.lower()` does on
ASCII text. -/
def lowerData (s : List Char) : List Char :=
  s.map Char.toLower

/-- Python `str.strip()`: drop whitespace from both ends. -/
def stripData (s : List Char) : List Char :=
  ((s.dropWhile pyIsSpace).reverse.dropWhile pyIsSpace).reverse

/-- Whether `pat` is an initial segment of `s` (helper for the Python
`in` substring operator). -/
def startsL : List Char → List Char → Bool
  | [], _ => true
  | _ :: _, [] => false
  | p :: ps, x :: xs => p = x && startsL ps xs

/-- Python `needle in hay` for strings: `needle` occurs contiguously in
`hay`. -/
def containsL (needle : List Char) : List Char → Bool
  | [] => startsL needle []
  | x :: t => startsL needle (x :: t) || containsL needle t

/-! ## Decimal numbers (`float(...)`, `str(float)`) -/

/-- Greedy match of the regex fragment `\d+\.?\d*` at the head of the
input: one or more digits, an optional dot, then any further digits.
Returns the matched characters (the capture group of the source's
patterns), or `none` when the input does not start with a digit. -/
def parseNumGroup (s : List Char) : Option (List Char) :=
  let d1 := s.takeWhile Char.isDigit
  if d1.isEmpty then none
  else
    match s.drop d1.length with
    | '.' :: r2 => some (d1 ++ '.' :: r2.takeWhile Char.isDigit)
    | _ => some d1

/-- Leftmost search for `(\d+\.?\d*)`, i.e. Python
`re.search(r'(\d+\.?\d*)', text)`: find the first digit and munch
greedily from there. -/
def findNumber : List Char → Option (List Char)
  | [] => none
  | x :: xs => if x.isDigit then parseNumGroup (x :: xs) else findNumber xs

/-- Numeric value of a digit list (most significant digit first). -/
def digitsVal (ds : List Char) : Nat :=
  ds.foldl (fun acc c => 10 * acc + (c.toNat - 48)) 0

/-- Exact decimal value of a matched number string such as `"8.45"`, as a
pair `(n, k)` denoting `n / 10^k`.  This is the decimal-exact model of
Python's `float(...)` applied to a `\d+\.?\d*` match. -/
def decOfChars (cs : List Char) : Nat × Nat :=
  let intPart := cs.takeWhile Char.isDigit
  match cs.drop intPart.length with
  | '.' :: frac => (digitsVal intPart * 10 ^ frac.length + digitsVal frac, frac.length)
  | _ => (digitsVal intPart, 0)

/-- The range test `0 <= potential_cgpa <= 10` of the source (the lower
bound always holds for a `\d+\.?\d*` match, which is non-negative). -/
def valueLe10 (p : Nat × Nat) : Bool :=
  p.1 ≤ 10 * 10 ^ p.2

/-- Drop trailing decimal zeros: `(845, 2) ↦ (845, 2)`, `(8450, 3) ↦ (845, 2)`,
`(8000, 3) ↦ (8, 0)`. -/
def stripZeros : Nat → Nat → Nat × Nat
  | n, 0 => (n, 0)
  | n, k + 1 => if n % 10 = 0 then stripZeros (n / 10) k else (n, k + 1)

/-- Left-pad a digit string with zeros to length `k`. -/
def padZeros (s : List Char) (k : Nat) : List Char :=
  List.replicate (k - s.length) '0' ++ s

/-- Decimal-exact model of Python `str(float)` on the values the source
converts (results of `float` on a `\d+\.?\d*` match that passed the
`[0, 10]` range test): trailing zeros are dropped and an integral value is
rendered with a trailing `.0`, e.g. `str(float("8.45")) = "8.45"`,
`str(float("10")) = "10.0"`, `str(float("0.50")) = "0.5"`. -/
def pyFloatRepr (n k : Nat) : String :=
  let p := stripZeros n k
  if p.2 = 0 then toString p.1 ++ ".0"
  else
    let d := 10 ^ p.2
    toString (p.1 / d) ++ "." ++ String.mk (padZeros (toString (p.1 % d)).data p.2)

/-- Convert a found number to the accepted CGPA string exactly as the
source's strategies 2 and 3 do: `potential_cgpa = float(match)`, keep it
only `if 0 <= potential_cgpa <= 10`, and render `str(potential_cgpa)`. -/
def acceptInRange (cs : List Char) : Option String :=
  let p := decOfChars cs
  if valueLe10 p then some (pyFloatRepr p.1 p.2) else none


/-! ## Regular expressions of extraction strategy 1

The source's six patterns use only: literal characters, `\s*`, `:?`,
`\.?`, lazy `.*?` (which does not cross a newline), and a final capture
group `(\d+\.?\d*)`.  `matchToks` runs the token list at a fixed start
position with Python's backtracking order (greedy `?`, lazy `*?`,
leftmost match), `reSearch` tries successive start positions as
`re.search` does.  `\s*` is matched by maximal munch without backtracking,
which is equivalent to Python here because in every pattern the token
after a `\s*` can only match `:` or a digit, never a whitespace
character. -/

/-- Regex tokens for the source's CGPA patterns. -/
inductive Tok where
  | lit (c : Char)
  | wsStar
  | optCh (c : Char)
  | lazyAny
  | numGroup
  deriving DecidableEq, Repr

/-- Run a token list against the input from its head, Python backtracking
order.  `fuel` makes the recursion structural; every recursive call
strictly decreases `toks.length + s.length`, so starting the fuel above
that sum makes the fuel inexhaustible. -/
def matchToks : Nat → List Tok → List Char → Option (List Char)
  | 0, _, _ => none
  | _ + 1, [], _ => none
  | fuel + 1, .lit c :: ts, s =>
    match s with
    | [] => none
    | x :: xs => if x = c then matchToks fuel ts xs else none
  | fuel + 1, .optCh c :: ts, s =>
    match s with
    | [] => matchToks fuel ts []
    | x :: xs =>
      if x = c then
        match matchToks fuel ts xs with
        | some r => some r
        | none => matchToks fuel ts (x :: xs)
      else matchToks fuel ts (x :: xs)
  | fuel + 1, .wsStar :: ts, s => matchToks fuel ts (s.dropWhile pyIsSpace)
  | fuel + 1, .lazyAny :: ts, s =>
    match matchToks fuel ts s with
    | some r => some r
    | none =>
      match s with
      | [] => none
      | x :: xs => if x = '\n' then none else matchToks fuel (.lazyAny :: ts) xs
  | _ + 1, .numGroup :: _, s => parseNumGroup s

/-- Python `re.search`: try every start position left to right, return
the first capture. -/
def reSearch (toks : List Tok) : List Char → Option (List Char)
  | [] => matchToks (toks.length + 1) toks []
  | x :: xs =>
    match matchToks (toks.length + (x :: xs).length + 1) toks (x :: xs) with
    | some r => some r
    | none => reSearch toks xs

/-- Literal characters of a pattern. -/
def lits (s : String) : List Tok :=
  s.data.map Tok.lit

/-- The shared pattern tail `\s*:?\s*(\d+\.?\d*)`. -/
def numTail : List Tok :=
  [.wsStar, .optCh ':', .wsStar, .numGroup]

/-- The six patterns of `cgpa_patterns` in source order:
`cgpa\s*:?\s*(\d+\.?\d*)`, `c\.?g\.?p\.?a\.?\s*:?\s*(\d+\.?\d*)`,
`cumulative.*?grade.*?point.*?average\s*:?\s*(\d+\.?\d*)`,
`overall.*?gpa\s*:?\s*(\d+\.?\d*)`, `final.*?cgpa\s*:?\s*(\d+\.?\d*)`,
`total.*?cgpa\s*:?\s*(\d+\.?\d*)`.  (`re.IGNORECASE` is immaterial: the
patterns are lower-case and the source searches the already lower-cased
text.) -/
def cgpa_patterns : List (List Tok) :=
  [ lits "cgpa" ++ numTail,
    [.lit 'c', .optCh '.', .lit 'g', .optCh '.', .lit 'p', .optCh '.', .lit 'a', .optCh '.'] ++ numTail,
    lits "cumulative" ++ [.lazyAny] ++ lits "grade" ++ [.lazyAny] ++ lits "point" ++ [.lazyAny] ++ lits "average" ++ numTail,
    lits "overall" ++ [.lazyAny] ++ lits "gpa" ++ numTail,
    lits "final" ++ [.lazyAny] ++ lits "cgpa" ++ numTail,
    lits "total" ++ [.lazyAny] ++ lits "cgpa" ++ numTail ]


/-! ## The parsed HTML document -/

/-- A node of the BeautifulSoup parse tree: an element with tag name,
attributes and children, or a piece of text. -/
inductive Node where
  | elem (tag : String) (attrs : List (String × String)) (children : List Node)
  | text (s : String)

/-- A parsed document (the `soup` object): the top-level nodes. -/
abbrev Doc := List Node

mutual

/-- BeautifulSoup `node.get_text()` (default separator `""`):
concatenation of all descendant text, document order. -/
def getTextN : Node → String
  | .text s => s
  | .elem _ _ cs => getTextList cs

/-- Text of a node list, document order. -/
def getTextList : List Node → String
  | [] => ""
  | n :: ns => getTextN n ++ getTextList ns

end

mutual

/-- All element nodes of a subtree (the node itself included when it is
an element), preorder = document order. -/
def elemsN : Node → List Node
  | .text _ => []
  | .elem t a cs => .elem t a cs :: elemsList cs

/-- All element nodes under a node list, document order; this is the
search space of `soup.find_all` / `soup.find`. -/
def elemsList : List Node → List Node
  | [] => []
  | n :: ns => elemsN n ++ elemsList ns

end

/-- Tag name of a node (`none` for text nodes). -/
def tagOf : Node → Option String
  | .elem t _ _ => some t
  | .text _ => none

/-- Attribute lookup, `tag.get(key)`: first binding wins. -/
def getAttr (n : Node) (key : String) : Option String :=
  match n with
  | .elem _ attrs _ => (attrs.find? (fun a => a.1 = key)).map (fun a => a.2)
  | .text _ => none

/-- Descendant elements of a node, itself excluded (`tag.find_all`
searches descendants only). -/
def descendantsOf (n : Node) : List Node :=
  match n with
  | .elem _ _ cs => elemsList cs
  | .text _ => []


/-! ## The Result Extractor (`_extract_cgpa_from_html`) -/

/-- Result dictionary of the extractor and of `get_cgpa`.  The source's
dict carries the keys `success` and `message` always, and `cgpa` and
`html_content` only on the success path; an absent key is `none`.  The
source never puts a `semesters` key in any result dictionary, so that
component is the constant `[]`; the field is kept (a semester record
being a list of rows, each a list of cell strings) so that claims about
it are statable. -/
structure ExtractionOutcome where
  success : Bool
  cgpa : Option String
  html_content : Option Doc
  semesters : List (List (List String))
  message : String

/-- Failure dictionary `{'success': False, 'message': m}`. -/
def failMsg (m : String) : ExtractionOutcome :=
  ⟨false, none, none, [], m⟩

/-- The `error_indicators` list of the source, verbatim and in order. -/
def error_indicators : List String :=
  ["not found", "invalid", "error", "no results", "no record"]

/-- The short-circuit failure built when an error indicator occurs in the
page text. -/
def notFoundOutcome (roll_number : String) : ExtractionOutcome :=
  failMsg ("Roll number " ++ roll_number ++ " not found or results unavailable.")

/-- The failure built when no strategy produced a CGPA ("format not
recognized" case). -/
def formatOutcome (roll_number : String) : ExtractionOutcome :=
  failMsg ("CGPA information not found for roll number " ++ roll_number ++ ". The results page might have a different format than expected.")

/-- The success dictionary of the extractor. -/
def successOutcome (doc : Doc) (roll_number cgpa : String) : ExtractionOutcome :=
  ⟨true, some cgpa, some doc, [], "CGPA for roll number " ++ roll_number ++ ": " ++ cgpa⟩

/-- The lower-cased page text `text_content = soup.get_text().lower()`. -/
def textContent (doc : Doc) : List Char :=
  lowerData (getTextList doc).data

/-- Strategy 1: try the six regex patterns in order over the lower-cased
text; the first pattern with a match wins and its captured group is the
CGPA string (no range check is applied on this path). -/
def strategy1 (text : List Char) : Option String :=
  cgpa_patterns.findSome? (fun p => (reSearch p text).map String.mk)

/-- The class-attribute filter of strategy 2:
`re.compile(r'cgpa|gpa|grade', re.I)` searched in the attribute value. -/
def classAttrMatches (v : String) : Bool :=
  let lv := lowerData v.data
  containsL "cgpa".data lv || containsL "gpa".data lv || containsL "grade".data lv

/-- Strategy 2: over all `span`/`div`/`td`/`p` elements whose `class`
attribute matches `cgpa|gpa|grade` (document order), take the first
embedded number that passes the `[0, 10]` range test. -/
def strategy2 (doc : Doc) : Option String :=
  let es := (elemsList doc).filter (fun n =>
    (match tagOf n with
     | some t => t = "span" || t = "div" || t = "td" || t = "p"
     | none => false)
    &&
    (match getAttr n "class" with
     | some v => classAttrMatches v
     | none => false))
  es.findSome? (fun e =>
    match findNumber (stripData (getTextN e).data) with
    | some num => acceptInRange num
    | none => none)

/-- Keywords of strategy 3's cell test. -/
def cellKeywords : List String :=
  ["cgpa", "gpa", "grade point"]

/-- Strategy 3, inner loop over the cells of one row (with their
successors, to see the adjacent cell).  For each cell: if its lower-cased
text contains a keyword, try the next cell's number (range-checked);
failing that, if the cell text contains `cgpa`, try the cell's own number
(range-checked); the first acceptance stops the scan. -/
def scanCells : List Node → Option String
  | [] => none
  | c :: rest =>
    let ct := lowerData (getTextN c).data
    let fromNext : Option String :=
      if cellKeywords.any (fun k => containsL k.data ct) then
        match rest with
        | next :: _ =>
          match findNumber (stripData (getTextN next).data) with
          | some num => acceptInRange num
          | none => none
        | [] => none
      else none
    match fromNext with
    | some v => some v
    | none =>
      let fromSelf : Option String :=
        if containsL "cgpa".data ct then
          match findNumber ct with
          | some num => acceptInRange num
          | none => none
        else none
      match fromSelf with
      | some v => some v
      | none => scanCells rest

/-- The tables of the document (`soup.find_all('table')`). -/
def tablesOf (doc : Doc) : List Node :=
  (elemsList doc).filter (fun n => tagOf n = some "table")

/-- The rows of a table (`table.find_all('tr')`). -/
def rowsOf (t : Node) : List Node :=
  (descendantsOf t).filter (fun n => tagOf n = some "tr")

/-- The cells of a row (`row.find_all(['td', 'th'])`). -/
def cellsOf (r : Node) : List Node :=
  (descendantsOf r).filter (fun n => tagOf n = some "td" || tagOf n = some "th")

/-- Strategy 3: scan every table, every row, first acceptance stops
everything (the `break` chain of the source). -/
def strategy3 (doc : Doc) : Option String :=
  (tablesOf doc).findSome? (fun t => (rowsOf t).findSome? (fun r => scanCells (cellsOf r)))

/-- The Result Extractor `_extract_cgpa_from_html(html, roll_number)`,
over the parsed document.  Order of the source: error-indicator
short-circuit first, then strategies 1, 2, 3 (each tried only if the
previous ones produced nothing), then the success / format-failure
dictionary.  The source's enclosing `try/except` is unreachable in this
model (none of the embedded operations raises). -/
def extract (doc : Doc) (roll_number : String) : ExtractionOutcome :=
  let text := textContent doc
  if error_indicators.any (fun ind => containsL ind.data text) then
    notFoundOutcome roll_number
  else
    let c1 := strategy1 text
    let c2 := match c1 with
      | some v => some v
      | none => strategy2 doc
    let c3 := match c2 with
      | some v => some v
      | none => strategy3 doc
    match c3 with
    | some v => successOutcome doc roll_number v
    | none => formatOutcome roll_number


/-! ## The fetch orchestration (`get_cgpa` and the two request paths)

The `requests` session is modelled by an environment mapping each request
to a parsed response document or a transport error (`Except.error`
covers every `requests` exception the source catches: timeout, connection
failure, and the non-2xx statuses surfaced by `raise_for_status`).
Each outgoing request is recorded as an event; a `sleep` event
constructor is included so that the absence of backoff delays is a
statable property, the source never emitting one. -/

/-- An observable effect of the orchestration. -/
inductive Ev where
  | get (url : String)
  | post (url : String) (data : List (String × String))
  | sleep (seconds : Nat)
  deriving DecidableEq, Repr

/-- The network: responses for GET and POST requests. -/
structure Env where
  get : String → Except String Doc
  post : String → List (String × String) → Except String Doc

/-- Constant `RESULTS_URL` of the source. -/
def RESULTS_URL : String :=
  "https://vishnu.edu.in/Results.php"

/-- List `possible_field_names` of `_try_post_request`, verbatim and in
order. -/
def possible_field_names : List String :=
  ["rollno", "roll_no", "regdno", "regno", "student_id", "rollnumber"]

/-- Model of `soup.find('input', {'name': nm})`: first input element
(document order) whose `name` attribute equals `nm`. -/
def findInputByName (doc : Doc) (nm : String) : Option Node :=
  (elemsList doc).find? (fun n => tagOf n = some "input" && getAttr n "name" = some nm)

/-- Model of `soup.find('input', {'type': ty})`. -/
def findInputByType (doc : Doc) (ty : String) : Option Node :=
  (elemsList doc).find? (fun n => tagOf n = some "input" && getAttr n "type" = some ty)

/-- The roll-number field name chosen by `_try_post_request`: the first
candidate of `possible_field_names` naming an input anywhere in the page;
otherwise the first text-type input, provided it carries a non-empty
`name` attribute (Python truthiness of `input_field.get('name')`). -/
def fieldNameOf (doc : Doc) : Option String :=
  match possible_field_names.findSome? (fun nm => (findInputByName doc nm).map (fun _ => nm)) with
  | some nm => some nm
  | none =>
    match findInputByType doc "text" with
    | some i =>
      match getAttr i "name" with
      | some nm => if nm = "" then none else some nm
      | none => none
    | none => none

/-- The POST form data: `{field_name: roll_number}`, plus the submit
control's name/value when the submit input carries a non-empty name
(`submit_button.get('value', 'Submit')` supplies the default value). -/
def formDataOf (doc : Doc) (fieldName roll_number : String) : List (String × String) :=
  let base := [(fieldName, roll_number)]
  match findInputByType doc "submit" with
  | some sb =>
    match getAttr sb "name" with
    | some nm =>
      if nm = "" then base
      else if nm = fieldName then [(fieldName, (getAttr sb "value").getD "Submit")]
      else base ++ [(nm, (getAttr sb "value").getD "Submit")]
    | none => base
  | none => base

/-- The resolved form action URL: `form.get('action', RESULTS_URL)`,
with a leading-slash path rebased onto `https://vishnu.edu.in` and
anything not starting with `http` replaced by `RESULTS_URL`. -/
def actionOf (form : Node) : String :=
  let action := (getAttr form "action").getD RESULTS_URL
  if action.startsWith "/" then "https://vishnu.edu.in" ++ action
  else if action.startsWith "http" then action
  else RESULTS_URL

/-- Model of `_try_post_request(roll_number)`: fetch the results page, find the
form and the roll-number input, POST the form data to the resolved
action, and run the extractor on the response.  Transport errors at
either request are caught and become the `POST request failed` outcome.
Returns the result together with the trace of issued requests. -/
def try_post_request (env : Env) (roll_number : String) : ExtractionOutcome × List Ev :=
  let t0 := [Ev.get RESULTS_URL]
  match env.get RESULTS_URL with
  | .error _ => (failMsg "POST request failed", t0)
  | .ok doc =>
    match (elemsList doc).find? (fun n => tagOf n = some "form") with
    | none => (failMsg "Form not found", t0)
    | some form =>
      match fieldNameOf doc with
      | none => (failMsg "Roll number input field not found", t0)
      | some fieldName =>
        let formData := formDataOf doc fieldName roll_number
        let action := actionOf form
        let t1 := t0 ++ [Ev.post action formData]
        match env.post action formData with
        | .error _ => (failMsg "POST request failed", t1)
        | .ok doc2 => (extract doc2 roll_number, t1)

/-- List `possible_params` of `_try_get_request`, verbatim and in
order. -/
def possible_params : List String :=
  ["rollno", "roll_no", "regdno", "regno", "student_id"]

/-- The fallback URL `f"{RESULTS_URL}?{param}={roll_number}"`. -/
def queryUrl (param roll_number : String) : String :=
  RESULTS_URL ++ "?" ++ param ++ "=" ++ roll_number

/-- The loop of `_try_get_request` over the remaining parameter names:
request each candidate URL in order; a transport error aborts the whole
loop (the `try` wraps the `for`), an extraction marked successful is
returned at once, and anything else moves to the next candidate. -/
def tryGetLoop (env : Env) (roll_number : String) : List String → ExtractionOutcome × List Ev
  | [] => (failMsg "GET request failed", [])
  | p :: ps =>
    let u := queryUrl p roll_number
    match env.get u with
    | .error _ => (failMsg "GET request failed", [Ev.get u])
    | .ok doc =>
      let r := extract doc roll_number
      if r.success then (r, [Ev.get u])
      else
        let rest := tryGetLoop env roll_number ps
        (rest.1, Ev.get u :: rest.2)

/-- Model of `_try_get_request(roll_number)`. -/
def try_get_request (env : Env) (roll_number : String) : ExtractionOutcome × List Ev :=
  tryGetLoop env roll_number possible_params

/-- Python `str.upper()` (ASCII). -/
def pyUpper (s : String) : String :=
  String.mk (s.data.map Char.toUpper)

/-- Python `str.strip()`. -/
def pyStrip (s : String) : String :=
  String.mk (stripData s.data)

/-- The cleaned roll number `roll_number.strip().upper()` of
`get_cgpa`. -/
def cleanRoll (roll_number : String) : String :=
  pyUpper (pyStrip roll_number)

/-- Model of `get_cgpa(roll_number)`: clean the roll number, reject an empty one
with no request, otherwise try the POST path and return its result if
successful, then the GET fallback and return its result if successful,
else the generic unavailability failure.  The trace collects every
request of both paths.  The source's outer exception handlers (network /
unexpected error) are unreachable in this model because both request
helpers already catch every exception themselves. -/
def get_cgpa (env : Env) (roll_number : String) : ExtractionOutcome × List Ev :=
  let rn := cleanRoll roll_number
  if rn = "" then (failMsg "Please provide a valid roll number.", [])
  else
    let pr := try_post_request env rn
    if pr.1.success then pr
    else
      let gr := try_get_request env rn
      if gr.1.success then (gr.1, pr.2 ++ gr.2)
      else (failMsg "Unable to retrieve results. The website might be temporarily unavailable or the roll number format might be incorrect.", pr.2 ++ gr.2)

/-! ## The conversation handler's roll-number validation
(`handle_roll_number`) -/

/-- The format test `re.match(r'^[A-Za-z0-9]+$', user_input)`: at least
one character and only ASCII letters and digits.  (`$` would also accept
one trailing newline, but the handler tests the already stripped input,
on which the two readings agree.) -/
def rollFormatOk (s : String) : Bool :=
  !s.data.isEmpty && s.data.all (fun c => c.isAlpha || c.isDigit)

/-- What `handle_roll_number` decides to do with a message text before
any network activity. -/
inductive HandlerDecision where
  | rejectEmpty
  | rejectFormat
  | lookup (roll_number : String)
  deriving DecidableEq, Repr

/-- The validation gate of `handle_roll_number`: strip the input, reject
an empty result, reject a format-regex failure, and otherwise hand the
stripped input to `cgpa_extractor.get_cgpa`.  Both rejections reply
immediately; `get_cgpa` (and hence any network request) is reached only
through `lookup`. -/
def handleRollDecision (input : String) : HandlerDecision :=
  let user_input := pyStrip input
  if user_input = "" then .rejectEmpty
  else if rollFormatOk user_input then .lookup user_input
  else .rejectFormat

/-- Whether a handler decision is a rejection (no lookup, hence no
network call). -/
def isReject : HandlerDecision → Bool
  | .rejectEmpty => true
  | .rejectFormat => true
  | .lookup _ => false

/-! ## The specified (but absent) semester-table extraction -/

/-- Modelled from the spec: the spec's "Step 3 — Semester table
extraction" does not exist in `src/vishnu_cgpa_bot.py` (no result
dictionary ever carries a `semesters` key); this definition follows the
spec's words so that the claim about it can be compared against the
source: every table is scanned, a row is kept only if it has at least the
minimum required number of cells (2, the lower bound of the spec's
"minimum 2–3 cells depending on revision"), a table contributes a record
only if it has at least one qualifying row, tables taken in document
order. -/
def semestersPerSpec (doc : Doc) : List (List (List String)) :=
  (tablesOf doc).filterMap (fun t =>
    let rows := (rowsOf t).filterMap (fun r =>
      let cs := (cellsOf r).map (fun c => getTextN c)
      if 2 ≤ cs.length then some cs else none)
    if rows.isEmpty then none else some rows)

/-! ## Trace observations -/

/-- Whether an event is a backoff delay. -/
def isSleepEv : Ev → Bool
  | .sleep _ => true
  | _ => false

/-- Whether an event is the plain fetch of the results page (the first
request of the POST path; a retry loop around `get_cgpa`'s attempt
sequence would repeat it). -/
def isResultsPageGet : Ev → Bool
  | .get u => u = RESULTS_URL
  | _ => false

/-! ## Concrete fixtures for the claims -/

/-- A page announcing an out-of-range CGPA in plain text. -/
def overRangeTextDoc : Doc :=
  [Node.text "CGPA: 12.0"]

/-- A page announcing an out-of-range CGPA in running text. -/
def overRangeProseDoc : Doc :=
  [Node.text "Your CGPA: 12.0"]

/-- A page whose only CGPA-labelled number sits in a table and is out of
range, and whose text matches none of the strategy-1 patterns. -/
def overRangeTableDoc : Doc :=
  [Node.elem "table" [] [Node.elem "tr" [] [Node.elem "td" [] [Node.text "GPA"], Node.elem "td" [] [Node.text "12.0"]]]]

/-- An element whose class attribute matches strategy 2's filter but
whose embedded number is out of range. -/
def overRangeAttrDoc : Doc :=
  [Node.elem "span" [("class", "cgpa")] [Node.text "12.0"]]

/-- A page carrying the explicit negative-result text. -/
def notFoundDoc : Doc :=
  [Node.text "Roll number not found"]

/-- A page containing the bare word `error`. -/
def serverErrorDoc : Doc :=
  [Node.text "Server error"]

/-- A page saying only `does not exist` (no indicator of the source's
list occurs in it). -/
def doesNotExistDoc : Doc :=
  [Node.text "does not exist"]

/-- The table of the C8 test HTML
`<table><tr><td>CGPA</td><td>8.45</td></tr></table>`. -/
def c8TableDoc : Doc :=
  [Node.elem "table" [] [Node.elem "tr" [] [Node.elem "td" [] [Node.text "CGPA"], Node.elem "td" [] [Node.text "8.45"]]]]

/-- A qualifying results table (one row, three cells) for the semester
claim. -/
def semesterTableDoc : Doc :=
  [Node.elem "table" [] [Node.elem "tr" [] [Node.elem "td" [] [Node.text "I"], Node.elem "td" [] [Node.text "Math"], Node.elem "td" [] [Node.text "9.0"]]]]

/-- A formless, contentless page for no-data extraction. -/
def noDataDoc : Doc :=
  [Node.text "no data"]

/-- A results-page fixture without a form (so the POST path fails at
form discovery). -/
def welcomeDoc : Doc :=
  [Node.text "Welcome"]

/-- A response with nothing extractable (GET fallback must move on). -/
def nothingHereDoc : Doc :=
  [Node.text "Nothing here"]

/-- A response with a recognizable CGPA of 9.1. -/
def cgpa91Doc : Doc :=
  [Node.text "CGPA: 9.1"]

/-- A response with a recognizable CGPA of 9.5. -/
def cgpa95Doc : Doc :=
  [Node.text "CGPA: 9.5"]

/-- A network on which every request fails with a transport error. -/
def envAllFail : Env :=
  ⟨fun _ => .error "connection error", fun _ _ => .error "connection error"⟩

/-- A network for the C5 counterexample: the results page has no form,
and the first fallback URL for the (format-invalid) roll number `@@@`
answers with a valid CGPA page. -/
def envC5 : Env :=
  ⟨fun u =>
    if u = RESULTS_URL then .ok welcomeDoc
    else if u = queryUrl "rollno" "@@@" then .ok cgpa95Doc
    else .error "connection error",
   fun _ _ => .error "connection error"⟩

/-- A network for the C7 witness: the results page has no form, the
first fallback parameter yields an unextractable page, and the second
yields a CGPA page. -/
def envC7 : Env :=
  ⟨fun u =>
    if u = RESULTS_URL then .ok welcomeDoc
    else if u = queryUrl "rollno" "21A91A0501" then .ok nothingHereDoc
    else if u = queryUrl "roll_no" "21A91A0501" then .ok cgpa91Doc
    else .error "connection error",
   fun _ _ => .error "connection error"⟩

/-! ## Helper lemmas -/

theorem startsL_self_append : ∀ ys zs : List Char, startsL ys (ys ++ zs) = true
  | [], _ => rfl
  | y :: ys, zs => by simp [startsL, startsL_self_append ys zs]

theorem containsL_cons (needle : List Char) (x : Char) (t : List Char)
    (h : containsL needle t = true) : containsL needle (x :: t) = true := by
  simp [containsL, h]

theorem containsL_self_append (ys zs : List Char) : containsL ys (ys ++ zs) = true := by
  have h := startsL_self_append ys zs
  cases hys : ys ++ zs with
  | nil =>
    obtain ⟨hy, _⟩ := List.append_eq_nil.mp hys
    subst hy
    rfl
  | cons a t =>
    rw [hys] at h
    simp [containsL, h]

theorem containsL_append_mid : ∀ xs ys zs : List Char, containsL ys (xs ++ ys ++ zs) = true
  | [], ys, zs => containsL_self_append ys zs
  | x :: xs, ys, zs => containsL_cons _ x _ (containsL_append_mid xs ys zs)

/-- The error-detection step fires before any strategy: when any
indicator occurs in the lower-cased page text, the extractor returns the
roll-number-specific failure. -/
theorem extract_error_shortcircuit (doc : Doc) (roll_number : String)
    (h : (error_indicators.any fun ind => containsL ind.data (textContent doc)) = true) :
    extract doc roll_number = notFoundOutcome roll_number := by
  unfold extract
  simp [h]

/-- A single indicator occurrence suffices for the short-circuit. -/
theorem extract_indicator_shortcircuit (doc : Doc) (roll_number ind : String)
    (hmem : ind ∈ error_indicators)
    (h : containsL ind.data (textContent doc) = true) :
    extract doc roll_number = notFoundOutcome roll_number :=
  extract_error_shortcircuit doc roll_number (List.any_eq_true.mpr ⟨ind, hmem, h⟩)

/-- The GET fallback loop stops at the first parameter whose response the
extractor marks successful, having requested exactly the candidates up to
and including it (in order), provided the earlier candidates all returned
pages (no transport error, which would abort the loop) that the extractor
rejected. -/
theorem tryGetLoop_first_success (env : Env) (roll_number : String) :
    ∀ (pre : List String) (p : String) (rest : List String) (d : Doc),
    (∀ q ∈ pre, ∃ dq, env.get (queryUrl q roll_number) = .ok dq ∧ (extract dq roll_number).success = false) →
    env.get (queryUrl p roll_number) = .ok d →
    (extract d roll_number).success = true →
    tryGetLoop env roll_number (pre ++ p :: rest) =
      (extract d roll_number, (pre ++ [p]).map fun q => Ev.get (queryUrl q roll_number))
  | [], p, rest, d, _, hok, hsucc => by
    simp [tryGetLoop, hok, hsucc]
  | q :: pre, p, rest, d, hpre, hok, hsucc => by
    obtain ⟨dq, hq, hfail⟩ := hpre q (by simp)
    have ih := tryGetLoop_first_success env roll_number pre p rest d
      (fun r hr => hpre r (by simp [hr])) hok hsucc
    simp [tryGetLoop, hq, hfail, ih]

/-- Shape of the POST-path trace: the single plain results-page fetch,
possibly followed by the single form submission; never a sleep. -/
theorem try_post_request_trace (env : Env) (roll_number : String) :
    (try_post_request env roll_number).2.countP isSleepEv = 0 ∧
    (try_post_request env roll_number).2.countP isResultsPageGet = 1 := by
  unfold try_post_request
  dsimp only
  split
  · simp [List.countP_cons, List.countP_nil, isSleepEv, isResultsPageGet, RESULTS_URL]
  · split
    · simp [List.countP_cons, List.countP_nil, isSleepEv, isResultsPageGet, RESULTS_URL]
    · split
      · simp [List.countP_cons, List.countP_nil, isSleepEv, isResultsPageGet, RESULTS_URL]
      · split
        · simp [List.countP_cons, List.countP_nil, isSleepEv, isResultsPageGet, RESULTS_URL]
        · simp [List.countP_cons, List.countP_nil, isSleepEv, isResultsPageGet, RESULTS_URL]

/-- A fallback URL is never the bare results URL (it is strictly
longer). -/
theorem queryUrl_ne_results (param roll_number : String) :
    (queryUrl param roll_number = RESULTS_URL) = False := by
  simp only [eq_iff_iff, iff_false]
  intro h
  have hlen := congrArg String.length h
  have h1 : ("?" : String).length = 1 := rfl
  have h2 : ("=" : String).length = 1 := rfl
  simp only [queryUrl, String.length_append] at hlen
  omega

/-- The GET-fallback trace holds neither sleeps nor plain results-page
fetches. -/
theorem tryGetLoop_trace (env : Env) (roll_number : String) :
    ∀ ps : List String,
    (tryGetLoop env roll_number ps).2.countP isSleepEv = 0 ∧
    (tryGetLoop env roll_number ps).2.countP isResultsPageGet = 0
  | [] => by simp [tryGetLoop]
  | p :: ps => by
    have ih := tryGetLoop_trace env roll_number ps
    have hne : isResultsPageGet (Ev.get (queryUrl p roll_number)) = false := by
      simp [isResultsPageGet, queryUrl_ne_results]
    unfold tryGetLoop
    dsimp only
    split
    · simp [List.countP_cons, List.countP_nil, isSleepEv, hne]
    · split
      · simp [List.countP_cons, List.countP_nil, isSleepEv, hne]
      · simp [List.countP_cons, isSleepEv, hne, ih.1, ih.2]




/-! ## The claims -/

/-- Claim C1, amended: for every parsed HTML input and roll number,
`success = true` implies the `cgpa` field is present, and
`success = false` implies `cgpa` is absent and `semesters` is empty.
The range half of the original claim does not hold: extraction strategy 1
applies no range check to the number captured after a CGPA label, so a
success may carry a `cgpa` whose numeric value exceeds 10 (see the
counterexample). -/
theorem claimC1_theorem (doc : Doc) (roll_number : String) :
    ((extract doc roll_number).success = true → ((extract doc roll_number).cgpa).isSome = true) ∧
    ((extract doc roll_number).success = false →
      (extract doc roll_number).cgpa = none ∧ (extract doc roll_number).semesters = []) := by
  unfold extract
  dsimp only
  split
  · exact ⟨fun h => absurd h (by simp [notFoundOutcome, failMsg]), fun _ => ⟨rfl, rfl⟩⟩
  · split
    · exact ⟨fun _ => rfl, fun h => absurd h (by simp [successOutcome])⟩
    · exact ⟨fun h => absurd h (by simp [formatOutcome, failMsg]), fun _ => ⟨rfl, rfl⟩⟩

/-- Claim C1, witness: on a page with no extractable data the outcome is
a failure with absent `cgpa` and empty `semesters`. -/
theorem claimC1_witness :
    (extract noDataDoc "21A91A0501").cgpa = none ∧
    (extract noDataDoc "21A91A0501").semesters = [] :=
  (claimC1_theorem noDataDoc "21A91A0501").2 rfl

/-- Claim C1, counterexample to the original invariant: the page text
`CGPA: 12.0` yields `success = true` with `cgpa = "12.0"`, whose numeric
value 12.0 is outside `[0, 10]` (strategy 1 captures the number after the
label without any range test). -/
theorem claimC1_counterexample :
    (extract overRangeTextDoc "21A91A0501").success = true ∧
    (extract overRangeTextDoc "21A91A0501").cgpa = some "12.0" ∧
    valueLe10 (decOfChars "12.0".data) = false :=
  ⟨rfl, rfl, rfl⟩

/-- Claim C2, counterexample to the original claim: on a page whose only
CGPA-labelled number is the out-of-range `12.0`, strategy 1 (regex over
the visible text) accepts the candidate and the outcome is
`success = true` with `cgpa = "12.0"` — not every strategy discards it,
and the outcome is not a failure. -/
theorem claimC2_counterexample :
    (extract overRangeProseDoc "21A91A0501").success = true ∧
    (extract overRangeProseDoc "21A91A0501").cgpa = some "12.0" :=
  ⟨rfl, rfl⟩

/-- Claim C2, amended: only strategies 2 and 3 discard an out-of-range
candidate; strategy 1 applies no range check.  On a page where no
strategy-1 pattern matches and the only CGPA-labelled number is the
out-of-range `12.0` (in an attribute-matched element, respectively in a
table cell), the candidate is discarded and the final outcome is
`success = false` with the format-not-recognized message, which differs
from the explicit-error message. -/
theorem claimC2_theorem :
    strategy2 overRangeAttrDoc = none ∧
    strategy3 overRangeTableDoc = none ∧
    extract overRangeTableDoc "21A91A0501" = formatOutcome "21A91A0501" ∧
    (formatOutcome "21A91A0501").message ≠ (notFoundOutcome "21A91A0501").message := by
  refine ⟨rfl, rfl, rfl, ?_⟩
  decide

/-- Claim C3: whenever any phrase of the error-indicator list occurs in
the lower-cased visible text, extraction returns the
roll-number-specific failure (`success = false`, `cgpa` absent), whose
message contains the roll number — for every document, hence regardless
of any CGPA-shaped content elsewhere on the page, and before any of the
three extraction strategies is consulted. -/
theorem claimC3_theorem (doc : Doc) (roll_number : String)
    (h : (error_indicators.any fun ind => containsL ind.data (textContent doc)) = true) :
    extract doc roll_number = notFoundOutcome roll_number ∧
    containsL roll_number.data (notFoundOutcome roll_number).message.data = true := by
  refine ⟨extract_error_shortcircuit doc roll_number h, ?_⟩
  show containsL roll_number.data
    (("Roll number " ++ roll_number ++ " not found or results unavailable.").data) = true
  rw [String.data_append, String.data_append]
  exact containsL_append_mid _ _ _

/-- Claim C3, witness: the page text `Roll number not found` triggers
the short-circuit for roll number `21A91A0501`. -/
theorem claimC3_witness :
    extract notFoundDoc "21A91A0501" = notFoundOutcome "21A91A0501" ∧
    containsL "21A91A0501".data (notFoundOutcome "21A91A0501").message.data = true :=
  claimC3_theorem notFoundDoc "21A91A0501" (by decide)

/-- Claim C4, amended: `get_cgpa` makes a single attempt — the POST path
followed, at most, by the GET fallbacks — with no retry loop and no
backoff: for every network and roll number its trace contains no sleep
event and at most one plain results-page fetch (a retry of the attempt
sequence would repeat that fetch). -/
theorem claimC4_theorem (env : Env) (roll_number : String) :
    (get_cgpa env roll_number).2.countP isSleepEv = 0 ∧
    (get_cgpa env roll_number).2.countP isResultsPageGet ≤ 1 := by
  unfold get_cgpa
  dsimp only
  split
  · simp
  · have hp := try_post_request_trace env (cleanRoll roll_number)
    have hg : (try_get_request env (cleanRoll roll_number)).2.countP isSleepEv = 0 ∧
        (try_get_request env (cleanRoll roll_number)).2.countP isResultsPageGet = 0 :=
      tryGetLoop_trace env (cleanRoll roll_number) possible_params
    split
    · exact ⟨hp.1, le_of_eq hp.2⟩
    · split
      · refine ⟨?_, ?_⟩
        · rw [List.countP_append, hp.1, hg.1]
        · rw [List.countP_append, hp.2, hg.2]
      · refine ⟨?_, ?_⟩
        · rw [List.countP_append, hp.1, hg.1]
        · rw [List.countP_append, hp.2, hg.2]

/-- Claim C4, counterexample to the original claim: on a network where
every request fails with a transport error — a fully failed attempt —
`get_cgpa` issues exactly two requests (the results-page fetch of the
POST path and the first fallback GET), sleeps zero times, and returns the
generic failure at once: there is no attempt 2 or 3 and there are no
backoff delays. -/
theorem claimC4_counterexample :
    get_cgpa envAllFail "21A91A0501" =
      (failMsg "Unable to retrieve results. The website might be temporarily unavailable or the roll number format might be incorrect.",
       [Ev.get RESULTS_URL, Ev.get (queryUrl "rollno" "21A91A0501")]) :=
  rfl

/-- Claim C5, amended: `get_cgpa` itself rejects, without any network
request, only a roll number that is empty after stripping; the format
regex `^[A-Za-z0-9]+$` is enforced by `handle_roll_number` before
`get_cgpa` is ever called (a failing input is rejected with no lookup),
but `get_cgpa` does issue network requests for a non-empty roll number
that fails the regex. -/
theorem claimC5_theorem :
    (∀ (env : Env) (roll_number : String), cleanRoll roll_number = "" →
      get_cgpa env roll_number = (failMsg "Please provide a valid roll number.", [])) ∧
    (∀ input : String, rollFormatOk (pyStrip input) = false →
      isReject (handleRollDecision input) = true) := by
  constructor
  · intro env roll_number h
    unfold get_cgpa
    dsimp only
    rw [if_pos h]
  · intro input h
    unfold handleRollDecision
    dsimp only
    split
    · rfl
    · simp [h, isReject]

/-- Claim C5, witness: a whitespace-only message is rejected by
`get_cgpa` with an empty trace, and the format-failing message `a@b` is
rejected by the handler gate. -/
theorem claimC5_witness :
    get_cgpa envC5 "   " = (failMsg "Please provide a valid roll number.", []) ∧
    isReject (handleRollDecision "a@b") = true :=
  ⟨claimC5_theorem.1 envC5 "   " (by decide), claimC5_theorem.2 "a@b" (by decide)⟩

/-- Claim C5, counterexample to the original claim: `@@@` fails the
roll-number format regex, yet `get_cgpa` applied to it issues network
requests (its trace is non-empty) and can even return `success = true` —
the regex validation lives in the conversation handler, not in
`get_cgpa`. -/
theorem claimC5_counterexample :
    rollFormatOk "@@@" = false ∧
    (get_cgpa envC5 "@@@").1.success = true ∧
    (get_cgpa envC5 "@@@").2 ≠ [] := by
  refine ⟨rfl, rfl, ?_⟩
  decide

/-- Claim C6, amended: extraction produces no semester records at all —
for every parsed HTML input and roll number the outcome's `semesters`
component is empty, because no result dictionary of the source ever
carries a `semesters` key and no semester-table scan exists in the code
(tables are consulted only by the CGPA cell strategy). -/
theorem claimC6_theorem (doc : Doc) (roll_number : String) :
    (extract doc roll_number).semesters = [] := by
  unfold extract
  dsimp only
  split
  · rfl
  · split
    · rfl
    · rfl

/-- Claim C6, counterexample to the original claim: a document with one
table holding one qualifying three-cell row would, per the claim,
contribute one `SemesterRecord` (as the spec-modelled extraction shows),
but the extractor's outcome has an empty `semesters` component. -/
theorem claimC6_counterexample :
    semestersPerSpec semesterTableDoc = [[["I", "Math", "9.0"]]] ∧
    (extract semesterTableDoc "21A91A0501").semesters = [] :=
  ⟨rfl, rfl⟩

/-- Claim C7: for a non-empty cleaned roll number, `get_cgpa` returns
the POST-path result outright when that path succeeds (no GET fallback
occurs: the trace is exactly the POST path's); when the POST path does
not yield success, it returns the GET-fallback result when that
succeeds, the trace extending the POST path's by the fallback's; and the
GET fallback walks the ordered candidate parameter list, stopping at the
first response the extractor marks successful, having requested exactly
the candidates up to and including it. -/
theorem claimC7_theorem :
    (∀ (env : Env) (roll_number : String), cleanRoll roll_number ≠ "" →
      (try_post_request env (cleanRoll roll_number)).1.success = true →
      get_cgpa env roll_number = try_post_request env (cleanRoll roll_number)) ∧
    (∀ (env : Env) (roll_number : String), cleanRoll roll_number ≠ "" →
      (try_post_request env (cleanRoll roll_number)).1.success = false →
      (try_get_request env (cleanRoll roll_number)).1.success = true →
      get_cgpa env roll_number =
        ((try_get_request env (cleanRoll roll_number)).1,
         (try_post_request env (cleanRoll roll_number)).2 ++ (try_get_request env (cleanRoll roll_number)).2)) ∧
    (∀ (env : Env) (roll_number : String) (pre : List String) (p : String) (rest : List String) (d : Doc),
      (∀ q ∈ pre, ∃ dq, env.get (queryUrl q roll_number) = .ok dq ∧ (extract dq roll_number).success = false) →
      env.get (queryUrl p roll_number) = .ok d →
      (extract d roll_number).success = true →
      tryGetLoop env roll_number (pre ++ p :: rest) =
        (extract d roll_number, (pre ++ [p]).map fun q => Ev.get (queryUrl q roll_number))) := by
  refine ⟨?_, ?_, fun env r pre p rest d h1 h2 h3 => tryGetLoop_first_success env r pre p rest d h1 h2 h3⟩
  · intro env roll_number hne hsucc
    unfold get_cgpa
    dsimp only
    rw [if_neg hne, if_pos hsucc]
  · intro env roll_number hne hfail hgsucc
    unfold get_cgpa
    dsimp only
    rw [if_neg hne, if_neg (by simp [hfail]), if_pos hgsucc]

/-- Claim C7, witness: on a network where the results page has no form
(POST path fails), the first fallback parameter returns an unextractable
page and the second a CGPA page, `get_cgpa` falls back to GET and the
fallback loop stops at the second candidate, having requested exactly
the first two. -/
theorem claimC7_witness :
    get_cgpa envC7 "21A91A0501" =
      ((try_get_request envC7 "21A91A0501").1,
       (try_post_request envC7 "21A91A0501").2 ++ (try_get_request envC7 "21A91A0501").2) ∧
    tryGetLoop envC7 "21A91A0501" (["rollno"] ++ "roll_no" :: ["regdno", "regno", "student_id"]) =
      (extract cgpa91Doc "21A91A0501",
       [Ev.get (queryUrl "rollno" "21A91A0501"), Ev.get (queryUrl "roll_no" "21A91A0501")]) := by
  constructor
  · exact claimC7_theorem.2.1 envC7 "21A91A0501" (by decide) rfl rfl
  · refine claimC7_theorem.2.2 envC7 "21A91A0501" ["rollno"] "roll_no" ["regdno", "regno", "student_id"] cgpa91Doc ?_ rfl rfl
    intro q hq
    have hq1 : q = "rollno" := by simpa using hq
    subst hq1
    exact ⟨nothingHereDoc, rfl, rfl⟩

/-- Claim C8: for the parse of
`<table><tr><td>CGPA</td><td>8.45</td></tr></table>`, the table-cell
adjacency strategy (strategy 3, taken on its own, i.e. under the
precondition that the earlier strategies are not consulted) extracts
`8.45` from the cell adjacent to the `CGPA` cell, and the full
extraction yields that first accepted value as the outcome's `cgpa` with
`success = true`. -/
theorem claimC8_theorem :
    strategy3 c8TableDoc = some "8.45" ∧
    (extract c8TableDoc "21A91A0501").cgpa = some "8.45" ∧
    (extract c8TableDoc "21A91A0501").success = true :=
  ⟨rfl, rfl, rfl⟩

/-- Claim C9: extraction is deterministic and idempotent.  The source's
`_extract_cgpa_from_html` reads nothing but its two arguments (its only
side effect is logging), so it embeds as the pure function `extract`,
and running it twice on the same parsed input and roll number yields the
same `ExtractionOutcome`. -/
theorem claimC9_theorem (doc : Doc) (roll_number : String) :
    extract doc roll_number = extract doc roll_number :=
  rfl

/-- Claim C10: the indicator set actually checked is exactly
`not found`, `invalid`, `error`, `no results`, `no record`; any page
whose lower-cased text contains the bare substring `error`, or the
substring `no results`, short-circuits to the roll-number-not-found
failure (before any CGPA strategy runs); and a page saying only
`does not exist` is not short-circuited — extraction proceeds to the
strategies and here ends in the format-failure outcome instead. -/
theorem claimC10_theorem :
    error_indicators = ["not found", "invalid", "error", "no results", "no record"] ∧
    (∀ (doc : Doc) (roll_number : String), containsL "error".data (textContent doc) = true →
      extract doc roll_number = notFoundOutcome roll_number) ∧
    (∀ (doc : Doc) (roll_number : String), containsL "no results".data (textContent doc) = true →
      extract doc roll_number = notFoundOutcome roll_number) ∧
    extract doesNotExistDoc "21A91A0501" = formatOutcome "21A91A0501" := by
  refine ⟨rfl, ?_, ?_, rfl⟩
  · intro doc roll_number h
    exact extract_indicator_shortcircuit doc roll_number "error" (by decide) h
  · intro doc roll_number h
    exact extract_indicator_shortcircuit doc roll_number "no results" (by decide) h

/-- Claim C10, witness: a page reading `Server error` is short-circuited
to the roll-number-not-found failure. -/
theorem claimC10_witness :
    extract serverErrorDoc "21A91A0501" = notFoundOutcome "21A91A0501" :=
  claimC10_theorem.2.1 serverErrorDoc "21A91A0501" (by decide)
